import Mathlib

/-!
Verification development for the accu-chat repository.

Part 1 embeds the budget rollup engine: the PostgreSQL trigger function
`update_budget_spent_amounts` and the row-level trigger
`update_budget_spent_amounts_trigger` declared in
`supabase/migrations/20250917153657_*.sql` (AFTER INSERT OR UPDATE OR DELETE
ON public.transactions, FOR EACH ROW).

Amounts are modelled as integers (the DECIMAL(15,2) column scaled to cents)
and dates as integers (days); user, transaction and budget identifiers are
naturals.  Each single-row statement on `transactions` is executed together
with the trigger machinery, recording every firing of the trigger function
and the transaction set each firing computed from.
-/

/-- A row of `public.transactions` restricted to the columns the rollup
engine and its trigger read. -/
structure Txn where
  id : Nat
  user_id : Nat
  account_id : Nat
  category_id : Option Nat
  amount : Int
  transaction_date : Int
  description : String
  status : String
deriving DecidableEq, Repr

/-- A row of `public.budgets` (all columns of the table that are not
timestamps, so that frame theorems speak about every field). -/
structure Budget where
  id : Nat
  user_id : Nat
  name : String
  category_id : Option Nat
  account_id : Option Nat
  budget_type : String
  amount : Int
  spent_amount : Int
  start_date : Int
  end_date : Int
  is_active : Bool
deriving DecidableEq, Repr

/-- The two tables the rollup engine touches. -/
structure DBState where
  transactions : List Txn
  budgets : List Budget
deriving DecidableEq, Repr

/-- The WHERE clause of the correlated subquery in
`update_budget_spent_amounts`: `t.category_id = budgets.category_id AND
t.user_id = budgets.user_id AND t.transaction_date BETWEEN budgets.start_date
AND budgets.end_date AND t.amount < 0`.  SQL equality with a NULL
`budgets.category_id` never holds, and the outer UPDATE filters those budgets
out anyway, so the `none` case is `false`. -/
def txnMatchesBudget (b : Budget) (t : Txn) : Bool :=
  match b.category_id with
  | some c =>
      t.category_id == some c && t.user_id == b.user_id &&
      decide (b.start_date ≤ t.transaction_date) &&
      decide (t.transaction_date ≤ b.end_date) &&
      decide (t.amount < 0)
  | none => false

/-- The correlated subquery `SELECT COALESCE(SUM(ABS(t.amount)), 0) ...` of
the trigger function, evaluated for one budget row. -/
def spentExpensesSum (ts : List Txn) (b : Budget) : Int :=
  (ts.filter (txnMatchesBudget b)).foldl (fun s t => s + |t.amount|) 0

/-- The body of the trigger function `public.update_budget_spent_amounts`:
`UPDATE public.budgets SET spent_amount = (subquery) WHERE user_id =
COALESCE(NEW.user_id, OLD.user_id) AND category_id IS NOT NULL`, with
`affected` standing for `COALESCE(NEW.user_id, OLD.user_id)`. -/
def update_budget_spent_amounts (affected : Nat) (s : DBState) : DBState :=
  { transactions := s.transactions
    budgets := s.budgets.map (fun b =>
      if b.user_id == affected && b.category_id.isSome then
        { b with spent_amount := spentExpensesSum s.transactions b }
      else b) }

/-- Timing of a PostgreSQL row-level trigger. -/
inductive TriggerTiming where
  | before
  | after
deriving DecidableEq, Repr

/-- The declarative part of a `CREATE TRIGGER` statement on
`public.transactions`. -/
structure TriggerDef where
  timing : TriggerTiming
  onInsert : Bool
  onUpdate : Bool
  onDelete : Bool
  forEachRow : Bool
deriving DecidableEq, Repr

/-- `CREATE TRIGGER update_budget_spent_amounts_trigger AFTER INSERT OR
UPDATE OR DELETE ON public.transactions FOR EACH ROW EXECUTE FUNCTION
public.update_budget_spent_amounts()`. -/
def update_budget_spent_amounts_trigger : TriggerDef :=
  { timing := TriggerTiming.after
    onInsert := true
    onUpdate := true
    onDelete := true
    forEachRow := true }

/-- A single-row mutating statement on `public.transactions`, as issued by
the application (which always inserts, updates or deletes one row identified
by its primary key). -/
inductive TxnStmt where
  | insertTxn (t : Txn)
  | updateTxn (i : Nat) (nt : Txn)
  | deleteTxn (i : Nat)
deriving DecidableEq, Repr

/-- Effect of the statement on the `transactions` table itself. -/
def applyTxnStmt : TxnStmt → List Txn → List Txn
  | TxnStmt.insertTxn t, ts => ts ++ [t]
  | TxnStmt.updateTxn i nt, ts => ts.map (fun t => if t.id == i then nt else t)
  | TxnStmt.deleteTxn i, ts => ts.filter (fun t => !(t.id == i))

/-- `COALESCE(NEW.user_id, OLD.user_id)` for each statement kind: `NEW` for
inserts and updates, `OLD` for deletes.  `none` when the statement touches no
row (then a row-level trigger does not fire at all). -/
def stmtAffectedUser : TxnStmt → List Txn → Option Nat
  | TxnStmt.insertTxn t, _ => some t.user_id
  | TxnStmt.updateTxn i nt, ts =>
      if (ts.find? (fun t => t.id == i)).isSome then some nt.user_id else none
  | TxnStmt.deleteTxn i, ts =>
      (ts.find? (fun t => t.id == i)).map (fun t => t.user_id)

/-- Whether the trigger fires for this statement: the statement kind must be
among the trigger's events and, being FOR EACH ROW, some row must actually be
affected. -/
def stmtFires (td : TriggerDef) : TxnStmt → List Txn → Bool
  | TxnStmt.insertTxn _, _ => td.onInsert
  | TxnStmt.updateTxn i _, ts => td.onUpdate && (ts.find? (fun t => t.id == i)).isSome
  | TxnStmt.deleteTxn i, ts => td.onDelete && (ts.find? (fun t => t.id == i)).isSome

/-- One firing of the trigger function, recording the affected user it was
invoked for and the transaction set visible to its body. -/
structure TriggerFiring where
  affected_user : Nat
  seen_transactions : List Txn
deriving DecidableEq, Repr

/-- Execute one single-row statement on `transactions` together with ONE
given trigger: the row change is applied, and if the trigger fires its body
runs once, seeing the pre-state for a BEFORE trigger and the post-state for
an AFTER trigger.  The list of firings is returned alongside the final
state.  The migration sequence actually installs two copies of the rollup
trigger (see `installedTransactionTriggers` and `execTxnStmtSchema` below);
since the body is idempotent (`update_budget_spent_amounts_idem`), the final
state of the single-trigger run equals the schema-level one, which is what
the invariant and frame theorems quantify over. -/
def execTxnStmt (td : TriggerDef) (s : DBState) (st : TxnStmt) :
    DBState × List TriggerFiring :=
  let post := applyTxnStmt st s.transactions
  if stmtFires td st s.transactions then
    match stmtAffectedUser st s.transactions with
    | some au =>
        let seen :=
          match td.timing with
          | TriggerTiming.after => post
          | TriggerTiming.before => s.transactions
        let s' := update_budget_spent_amounts au
          { transactions := seen, budgets := s.budgets }
        ({ transactions := post, budgets := s'.budgets },
         [{ affected_user := au, seen_transactions := seen }])
    | none => ({ transactions := post, budgets := s.budgets }, [])
  else ({ transactions := post, budgets := s.budgets }, [])

/-- Row-level security on `transactions` (`auth.uid() = user_id`, USING and
WITH CHECK) means a statement executed by user `u` inserts rows owned by `u`,
updates rows owned by `u` to rows still owned by `u`, and deletes rows owned
by `u`.  This predicate characterises such statements. -/
def stmtByUser (st : TxnStmt) (ts : List Txn) (u : Nat) : Bool :=
  match st with
  | TxnStmt.insertTxn t => t.user_id == u
  | TxnStmt.updateTxn i nt =>
      nt.user_id == u &&
      (match ts.find? (fun x => x.id == i) with
       | some told => told.user_id == u
       | none => false)
  | TxnStmt.deleteTxn i =>
      match ts.find? (fun x => x.id == i) with
      | some told => told.user_id == u
      | none => false

/-- `CREATE TRIGGER update_budget_amounts_on_transaction_change AFTER INSERT
OR UPDATE OR DELETE ON public.transactions FOR EACH ROW EXECUTE FUNCTION
public.update_budget_spent_amounts()`, from the 20250916 migration.  This
trigger is never dropped by any later migration. -/
def update_budget_amounts_on_transaction_change : TriggerDef :=
  { timing := TriggerTiming.after
    onInsert := true
    onUpdate := true
    onDelete := true
    forEachRow := true }

/-- `DROP TRIGGER IF EXISTS name ON public.transactions`: removes the
trigger with that name from the installed set, if present. -/
def dropTriggerIfExists (name : String) (tds : List (String × TriggerDef)) :
    List (String × TriggerDef) :=
  tds.filter (fun p => !(p.1 == name))

/-- The triggers installed on `public.transactions` by the migration
sequence: 20250916 creates `update_budget_amounts_on_transaction_change`;
20250917 first runs `DROP TRIGGER IF EXISTS update_budget_spent_amounts_trigger`
(a no-op at that point — only the 20250916 name exists) and then creates
`update_budget_spent_amounts_trigger`.  Both entries execute
`update_budget_spent_amounts`.  PostgreSQL fires same-event triggers in
name order, which for these two names is the list order below. -/
def installedTransactionTriggers : List (String × TriggerDef) :=
  dropTriggerIfExists "update_budget_spent_amounts_trigger"
    [("update_budget_amounts_on_transaction_change",
      update_budget_amounts_on_transaction_change)]
  ++ [("update_budget_spent_amounts_trigger", update_budget_spent_amounts_trigger)]

/-- Fire each installed trigger in order for one single-row statement:
a firing trigger's body runs on the budgets table left by the previous one
(the transactions table is not touched by the body), seeing the pre- or
post-mutation transaction set according to its timing. -/
def runInstalledTriggers (tds : List (String × TriggerDef)) (st : TxnStmt)
    (pre post : List Txn) (bs : List Budget) : List Budget × List TriggerFiring :=
  match tds with
  | [] => (bs, [])
  | (_, td) :: rest =>
      if stmtFires td st pre then
        match stmtAffectedUser st pre with
        | some au =>
            let seen :=
              match td.timing with
              | TriggerTiming.after => post
              | TriggerTiming.before => pre
            let bs' := (update_budget_spent_amounts au
              { transactions := seen, budgets := bs }).budgets
            let r := runInstalledTriggers rest st pre post bs'
            (r.1, { affected_user := au, seen_transactions := seen } :: r.2)
        | none => runInstalledTriggers rest st pre post bs
      else runInstalledTriggers rest st pre post bs

/-- Execute one single-row statement on `transactions` under a full
installed trigger set (the schema-level counterpart of `execTxnStmt`, which
runs a single given trigger). -/
def execTxnStmtSchema (tds : List (String × TriggerDef)) (s : DBState) (st : TxnStmt) :
    DBState × List TriggerFiring :=
  let post := applyTxnStmt st s.transactions
  let r := runInstalledTriggers tds st s.transactions post s.budgets
  ({ transactions := post, budgets := r.1 }, r.2)

/-- Helper: `Forall₂` between a list and its image under a map. -/
theorem forall2_map_self {α : Type} (f : α → α) (R : α → α → Prop) (l : List α)
    (h : ∀ a ∈ l, R a (f a)) : List.Forall₂ R l (l.map f) := by
  induction l with
  | nil => simp
  | cons a t ih =>
      simp only [List.map_cons]
      exact List.Forall₂.cons (h a (by simp)) (ih (fun x hx => h x (by simp [hx])))

/-- Helper: the rollup subquery ignores the `spent_amount` column of the
budget it is evaluated for. -/
theorem spentExpensesSum_set_spent (ts : List Txn) (b : Budget) (x : Int) :
    spentExpensesSum ts { b with spent_amount := x } = spentExpensesSum ts b := rfl

/-- Helper: what one run of the trigger function body does to the budgets
table: every budget of the affected user with a category is recomputed to the
subquery value, budgets without a category are untouched, and budgets of
other users are untouched. -/
theorem update_budget_spent_amounts_spec (au : Nat) (ts : List Txn) (bs : List Budget) :
    (∀ b' ∈ (update_budget_spent_amounts au { transactions := ts, budgets := bs }).budgets,
        b'.user_id = au → b'.category_id.isSome → b'.spent_amount = spentExpensesSum ts b')
    ∧ List.Forall₂ (fun b b' => b.category_id = none → b' = b) bs
        (update_budget_spent_amounts au { transactions := ts, budgets := bs }).budgets
    ∧ List.Forall₂ (fun b b' => b.user_id ≠ au → b' = b) bs
        (update_budget_spent_amounts au { transactions := ts, budgets := bs }).budgets := by
  refine ⟨?_, ?_, ?_⟩
  · intro b' hb' hu hc
    simp only [update_budget_spent_amounts, List.mem_map] at hb'
    obtain ⟨b, _, rfl⟩ := hb'
    by_cases hcond : (b.user_id == au && b.category_id.isSome) = true
    · rw [if_pos hcond]
      simp [spentExpensesSum_set_spent]
    · rw [if_neg hcond] at hu hc
      exfalso
      simp only [Bool.and_eq_true, beq_iff_eq] at hcond
      exact hcond ⟨hu, hc⟩
  · simp only [update_budget_spent_amounts]
    refine forall2_map_self _ _ _ (fun b _ hnone => ?_)
    simp [hnone]
  · simp only [update_budget_spent_amounts]
    refine forall2_map_self _ _ _ (fun b _ hne => ?_)
    have : (b.user_id == au) = false := by
      simpa using hne
    simp [this]

/-- Helper: reduction of `execTxnStmt` for the rollup trigger, for any
single-row statement executed by user `u`: the row change is applied, the
trigger fires exactly once, its body sees the post-mutation transaction set,
and the budgets table is the result of one run of
`update_budget_spent_amounts` over that post-mutation set. -/
theorem execTxnStmt_eq (s : DBState) (st : TxnStmt) (u : Nat)
    (hby : stmtByUser st s.transactions u = true) :
    execTxnStmt update_budget_spent_amounts_trigger s st
      = ({ transactions := applyTxnStmt st s.transactions
           budgets := (update_budget_spent_amounts u
             { transactions := applyTxnStmt st s.transactions
               budgets := s.budgets }).budgets },
         [{ affected_user := u
            seen_transactions := applyTxnStmt st s.transactions }]) := by
  cases st with
  | insertTxn t =>
      simp only [stmtByUser, beq_iff_eq] at hby
      subst hby
      rfl
  | updateTxn i nt =>
      simp only [stmtByUser, Bool.and_eq_true, beq_iff_eq] at hby
      obtain ⟨hnt, hfind⟩ := hby
      cases hf : s.transactions.find? (fun x => x.id == i) with
      | none => rw [hf] at hfind; exact absurd hfind (by simp)
      | some told =>
          rw [hf] at hfind
          simp only [execTxnStmt, stmtFires, stmtAffectedUser,
            update_budget_spent_amounts_trigger, hf, Option.isSome_some,
            Bool.and_true, if_pos rfl]
          subst hnt
          rfl
  | deleteTxn i =>
      simp only [stmtByUser] at hby
      cases hf : s.transactions.find? (fun x => x.id == i) with
      | none => rw [hf] at hby; exact absurd hby (by simp)
      | some told =>
          rw [hf] at hby
          simp only [beq_iff_eq] at hby
          simp only [execTxnStmt, stmtFires, stmtAffectedUser,
            update_budget_spent_amounts_trigger, hf, Option.isSome_some,
            Bool.and_true, if_pos rfl, Option.map_some']
          subst hby
          rfl

/-- C1: after every transaction insert, update, or delete by a user, every
budget owned by that user with a non-null `category_id` satisfies
`spent_amount = Σ |amount|` over that user's transactions whose category
matches the budget's, whose date lies in the budget's own
`[start_date, end_date]` window, and whose amount is negative; budgets with
a null `category_id` are never updated by the rollup. -/
theorem budget_rollup_invariant (s : DBState) (st : TxnStmt) (u : Nat)
    (hby : stmtByUser st s.transactions u = true) :
    (∀ b ∈ (execTxnStmt update_budget_spent_amounts_trigger s st).1.budgets,
        b.user_id = u → b.category_id.isSome →
        b.spent_amount =
          spentExpensesSum
            (execTxnStmt update_budget_spent_amounts_trigger s st).1.transactions b)
    ∧ List.Forall₂ (fun b b' => b.category_id = none → b' = b) s.budgets
        (execTxnStmt update_budget_spent_amounts_trigger s st).1.budgets := by
  rw [execTxnStmt_eq s st u hby]
  obtain ⟨h1, h2, _⟩ :=
    update_budget_spent_amounts_spec u (applyTxnStmt st s.transactions) s.budgets
  exact ⟨h1, h2⟩

/-- Helper: the installed trigger list normalised (the 20250917 DROP
matches neither entry, since only the 20250916 name exists when it runs). -/
theorem installedTransactionTriggers_eq :
    installedTransactionTriggers
      = [("update_budget_amounts_on_transaction_change",
          update_budget_amounts_on_transaction_change),
         ("update_budget_spent_amounts_trigger", update_budget_spent_amounts_trigger)] := rfl

/-- Helper: the trigger body is idempotent — recomputing the budgets of the
affected user a second time from the same transaction set changes nothing,
because the subquery never reads `spent_amount`. -/
theorem update_budget_spent_amounts_idem (au : Nat) (ts : List Txn) (bs : List Budget) :
    (update_budget_spent_amounts au
        { transactions := ts
          budgets := (update_budget_spent_amounts au
            { transactions := ts, budgets := bs }).budgets }).budgets
      = (update_budget_spent_amounts au { transactions := ts, budgets := bs }).budgets := by
  simp only [update_budget_spent_amounts, List.map_map]
  apply List.map_congr_left
  intro b _
  by_cases hcond : (b.user_id == au && b.category_id.isSome) = true
  · simp only [Function.comp_apply, if_pos hcond, spentExpensesSum_set_spent]
  · simp only [Function.comp_apply, if_neg hcond]

/-- Helper: reduction of `execTxnStmtSchema` over the installed trigger set
for a statement by user `u`: the rollup body fires twice, each firing sees
the post-mutation transaction set, and (by idempotence) the final budgets
equal a single recomputation over that set. -/
theorem execTxnStmtSchema_eq (s : DBState) (st : TxnStmt) (u : Nat)
    (hby : stmtByUser st s.transactions u = true) :
    execTxnStmtSchema installedTransactionTriggers s st
      = ({ transactions := applyTxnStmt st s.transactions
           budgets := (update_budget_spent_amounts u
             { transactions := applyTxnStmt st s.transactions
               budgets := s.budgets }).budgets },
         [{ affected_user := u
            seen_transactions := applyTxnStmt st s.transactions },
          { affected_user := u
            seen_transactions := applyTxnStmt st s.transactions }]) := by
  cases st with
  | insertTxn t =>
      simp only [stmtByUser, beq_iff_eq] at hby
      subst hby
      simp only [execTxnStmtSchema, installedTransactionTriggers_eq, runInstalledTriggers,
        stmtFires, stmtAffectedUser, update_budget_amounts_on_transaction_change,
        update_budget_spent_amounts_trigger, if_pos rfl, ite_true, applyTxnStmt]
      rw [update_budget_spent_amounts_idem]
  | updateTxn i nt =>
      simp only [stmtByUser, Bool.and_eq_true, beq_iff_eq] at hby
      obtain ⟨hnt, hfind⟩ := hby
      cases hf : s.transactions.find? (fun x => x.id == i) with
      | none => rw [hf] at hfind; exact absurd hfind (by simp)
      | some told =>
          rw [hf] at hfind
          subst hnt
          simp only [execTxnStmtSchema, installedTransactionTriggers_eq, runInstalledTriggers,
            stmtFires, stmtAffectedUser, update_budget_amounts_on_transaction_change,
            update_budget_spent_amounts_trigger, hf, Option.isSome_some,
            Bool.and_true, if_pos rfl, ite_true, applyTxnStmt]
          rw [update_budget_spent_amounts_idem]
  | deleteTxn i =>
      simp only [stmtByUser] at hby
      cases hf : s.transactions.find? (fun x => x.id == i) with
      | none => rw [hf] at hby; exact absurd hby (by simp)
      | some told =>
          rw [hf] at hby
          simp only [beq_iff_eq] at hby
          subst hby
          simp only [execTxnStmtSchema, installedTransactionTriggers_eq, runInstalledTriggers,
            stmtFires, stmtAffectedUser, update_budget_amounts_on_transaction_change,
            update_budget_spent_amounts_trigger, hf, Option.isSome_some,
            Bool.and_true, if_pos rfl, ite_true, Option.map_some', applyTxnStmt]
          rw [update_budget_spent_amounts_idem]

/-- C2 (refuting the spec sentence): the migration sequence installs TWO
AFTER ROW triggers on `public.transactions` that both execute
`update_budget_spent_amounts` — the 20250917 migration's
`DROP TRIGGER IF EXISTS update_budget_spent_amounts_trigger` misses the
20250916 trigger `update_budget_amounts_on_transaction_change`, which is
never dropped — so for every transaction insert, update, or delete the
recomputation runs exactly TWICE, not once; each run is after the mutation
and computes from the post-mutation transaction set, and by idempotence the
final state equals a single recomputation. -/
theorem rollup_recomputation_runs_twice (s : DBState) (st : TxnStmt) (u : Nat)
    (hby : stmtByUser st s.transactions u = true) :
    installedTransactionTriggers.length = 2
    ∧ execTxnStmtSchema installedTransactionTriggers s st
      = ({ transactions := applyTxnStmt st s.transactions
           budgets := (update_budget_spent_amounts u
             { transactions := applyTxnStmt st s.transactions
               budgets := s.budgets }).budgets },
         [{ affected_user := u
            seen_transactions := applyTxnStmt st s.transactions },
          { affected_user := u
            seen_transactions := applyTxnStmt st s.transactions }]) :=
  ⟨rfl, execTxnStmtSchema_eq s st u hby⟩

/-- C7: the rollup triggered by a transaction mutation of user `u` leaves
every budget of every other user entirely unchanged (every field). -/
theorem rollup_preserves_other_users_budgets (s : DBState) (st : TxnStmt) (u : Nat)
    (hby : stmtByUser st s.transactions u = true) :
    List.Forall₂ (fun b b' => b.user_id ≠ u → b' = b) s.budgets
      (execTxnStmt update_budget_spent_amounts_trigger s st).1.budgets := by
  rw [execTxnStmt_eq s st u hby]
  exact (update_budget_spent_amounts_spec u (applyTxnStmt st s.transactions) s.budgets).2.2

/-- Concrete transaction used by the rollup witnesses. -/
def rollupExTxn : Txn :=
  { id := 1, user_id := 7, account_id := 3, category_id := some 11, amount := -50,
    transaction_date := 10, description := "Taxi", status := "cleared" }

/-- A second concrete transaction (inserted by the C1 witness). -/
def rollupExTxn2 : Txn :=
  { id := 2, user_id := 7, account_id := 3, category_id := some 11, amount := -25,
    transaction_date := 12, description := "Lunch", status := "cleared" }

/-- A concrete budget of user 7 scoped to category 11. -/
def rollupExBudget : Budget :=
  { id := 21, user_id := 7, name := "Travel", category_id := some 11, account_id := none,
    budget_type := "monthly", amount := 300, spent_amount := 999, start_date := 0,
    end_date := 30, is_active := true }

/-- A concrete budget of a different user (user 8). -/
def rollupExOtherBudget : Budget :=
  { id := 22, user_id := 8, name := "Other", category_id := some 11, account_id := none,
    budget_type := "monthly", amount := 100, spent_amount := 5, start_date := 0,
    end_date := 30, is_active := true }

/-- A concrete budget of user 7 with no category. -/
def rollupExNullCatBudget : Budget :=
  { id := 23, user_id := 7, name := "Uncategorised", category_id := none, account_id := none,
    budget_type := "yearly", amount := 1000, spent_amount := 42, start_date := 0,
    end_date := 365, is_active := true }

/-- Concrete database state used by the rollup witnesses. -/
def rollupExState : DBState :=
  { transactions := [rollupExTxn]
    budgets := [rollupExBudget, rollupExOtherBudget, rollupExNullCatBudget] }

/-- Witness for C1 at a concrete insert by user 7. -/
theorem budget_rollup_invariant_witness :
    stmtByUser (TxnStmt.insertTxn rollupExTxn2) rollupExState.transactions 7 = true
    ∧ ((∀ b ∈ (execTxnStmt update_budget_spent_amounts_trigger rollupExState
            (TxnStmt.insertTxn rollupExTxn2)).1.budgets,
          b.user_id = 7 → b.category_id.isSome →
          b.spent_amount =
            spentExpensesSum
              (execTxnStmt update_budget_spent_amounts_trigger rollupExState
                (TxnStmt.insertTxn rollupExTxn2)).1.transactions b)
        ∧ List.Forall₂ (fun b b' => b.category_id = none → b' = b) rollupExState.budgets
            (execTxnStmt update_budget_spent_amounts_trigger rollupExState
              (TxnStmt.insertTxn rollupExTxn2)).1.budgets) :=
  ⟨by decide, budget_rollup_invariant rollupExState (TxnStmt.insertTxn rollupExTxn2) 7 (by decide)⟩

/-- Witness for C2 at a concrete delete by user 7: the rollup body fires
twice for the one statement. -/
theorem rollup_recomputation_runs_twice_witness :
    stmtByUser (TxnStmt.deleteTxn 1) rollupExState.transactions 7 = true
    ∧ (installedTransactionTriggers.length = 2
       ∧ execTxnStmtSchema installedTransactionTriggers rollupExState (TxnStmt.deleteTxn 1)
        = ({ transactions := applyTxnStmt (TxnStmt.deleteTxn 1) rollupExState.transactions
             budgets := (update_budget_spent_amounts 7
               { transactions := applyTxnStmt (TxnStmt.deleteTxn 1) rollupExState.transactions
                 budgets := rollupExState.budgets }).budgets },
           [{ affected_user := 7
              seen_transactions := applyTxnStmt (TxnStmt.deleteTxn 1) rollupExState.transactions },
            { affected_user := 7
              seen_transactions := applyTxnStmt (TxnStmt.deleteTxn 1) rollupExState.transactions }])) :=
  ⟨by decide, rollup_recomputation_runs_twice rollupExState (TxnStmt.deleteTxn 1) 7 (by decide)⟩

/-- Witness for C7 at a concrete update by user 7. -/
theorem rollup_preserves_other_users_budgets_witness :
    stmtByUser (TxnStmt.updateTxn 1 rollupExTxn2) rollupExState.transactions 7 = true
    ∧ List.Forall₂ (fun b b' => b.user_id ≠ 7 → b' = b) rollupExState.budgets
        (execTxnStmt update_budget_spent_amounts_trigger rollupExState
          (TxnStmt.updateTxn 1 rollupExTxn2)).1.budgets :=
  ⟨by decide, rollup_preserves_other_users_budgets rollupExState (TxnStmt.updateTxn 1 rollupExTxn2) 7 (by decide)⟩

/-!
Part 2 embeds the conversational action dispatcher: the deployed edge
function `supabase/functions/ai-accountant/index.ts`.  The model's raw text
is parsed with a JavaScript-style `JSON.parse` (a total, fuel-bounded
recursive descent over the characters, rejecting trailing garbage); the
parsed value drives `performAction`, whose four handled cases each issue one
persistence call against an embedded database whose insert operations check
the schema constraints declared in
`supabase/migrations/20250915200622_*.sql`.  Every attempted persistence
call is logged so that call-counting claims can be stated.
-/

/-- A JSON number kept in unnormalised decimal form: the value is
`mant / 10 ^ scale`.  `JSON.parse` of an integer literal yields scale 0. -/
structure JsNumber where
  mant : Int
  scale : Nat
deriving DecidableEq, Repr

/-- A JSON value as produced by `JSON.parse` (object fields in source order
with duplicates preserved). -/
inductive JsValue where
  | null
  | bool (b : Bool)
  | num (n : JsNumber)
  | str (s : String)
  | arr (xs : List JsValue)
  | obj (fields : List (String × JsValue))

/-- JavaScript property read `j.k` for our purposes: a field of an object
(last occurrence wins, as in `JSON.parse`), `none` (undefined) otherwise. -/
def jget (j : JsValue) (k : String) : Option JsValue :=
  match j with
  | JsValue.obj fs => (fs.reverse.find? (fun p => p.1 == k)).map (fun p => p.2)
  | _ => none

/-- JavaScript truthiness of a possibly-undefined value: `undefined`,
`null`, `false`, `0` and `""` are falsy; everything else is truthy. -/
def jsTruthy : Option JsValue → Bool
  | none => false
  | some JsValue.null => false
  | some (JsValue.bool b) => b
  | some (JsValue.num n) => !(n.mant == 0)
  | some (JsValue.str s) => !(s == "")
  | some (JsValue.arr _) => true
  | some (JsValue.obj _) => true

/-- JavaScript `a || b` for a possibly-undefined `a`. -/
def jsOrElse (v : Option JsValue) (fb : JsValue) : JsValue :=
  match v with
  | some x => if jsTruthy (some x) then x else fb
  | none => fb

/-- The four whitespace characters of the JSON grammar. -/
def jsonWsChars : List Char := [' ', '\n', '\t', '\r']

/-- Whitespace skipping of the JSON grammar. -/
def skipWs : List Char → List Char
  | [] => []
  | c :: cs => if jsonWsChars.contains c then skipWs cs else c :: cs

/-- Escape characters of the JSON grammar (the ones the repository's
payloads can contain). -/
def escChar (e : Char) : Option Char :=
  if e = '"' || e = '\\' || e = '/' then some e
  else if e = 'n' then some (Char.ofNat 10)
  else if e = 't' then some (Char.ofNat 9)
  else if e = 'r' then some (Char.ofNat 13)
  else none

/-- String body scanner of the JSON grammar: consumes up to the closing
quote, decoding the basic escapes. -/
def scanStrChars : List Char → Option (List Char × List Char)
  | [] => none
  | '"' :: rest => some ([], rest)
  | '\\' :: e :: rest =>
      match escChar e, scanStrChars rest with
      | some c, some p => some (c :: p.1, p.2)
      | _, _ => none
  | c :: rest =>
      if c = '\\' || c = '"' then none
      else
        match scanStrChars rest with
        | some p => some (c :: p.1, p.2)
        | none => none

/-- Leading decimal digits of the input, and what follows them. -/
def digitSpan : List Char → List Char × List Char
  | [] => ([], [])
  | c :: cs =>
      if c.isDigit then ((c :: (digitSpan cs).1), (digitSpan cs).2)
      else ([], c :: cs)

/-- Numeric value of a digit string, accumulator style. -/
def digitsValue (acc : Nat) : List Char → Nat
  | [] => acc
  | c :: cs => digitsValue (acc * 10 + (c.toNat - 48)) cs

/-- Unsigned number literal of the JSON grammar: integer part and optional
fractional part, as mantissa and scale. -/
def scanMagnitude (cs : List Char) : Option (JsNumber × List Char) :=
  match digitSpan cs with
  | ([], _) => none
  | (ip, '.' :: cs2) =>
      match digitSpan cs2 with
      | ([], _) => none
      | (fp, cs3) =>
          some ({ mant := (digitsValue (digitsValue 0 ip) fp : Nat), scale := fp.length }, cs3)
  | (ip, cs2) => some ({ mant := (digitsValue 0 ip : Nat), scale := 0 }, cs2)

/-- Number literal of the JSON grammar: `scanMagnitude` behind an optional
minus sign. -/
def scanNumber : List Char → Option (JsNumber × List Char)
  | '-' :: cs =>
      (scanMagnitude cs).map (fun p => ({ p.1 with mant := -p.1.mant }, p.2))
  | cs => scanMagnitude cs

/-- Parsing mode of the recursive descent: a single value, the items of an
array after `[`, or the members of an object after the opening brace. -/
inductive PMode where
  | val
  | arrItems
  | objItems

/-- Result of one recursive-descent step. -/
inductive PRes where
  | v (j : JsValue)
  | items (xs : List JsValue)
  | fields (xs : List (String × JsValue))

/-- Fuel-bounded recursive descent for the JSON grammar (the fuel only
bounds nesting/iteration and is chosen larger than the input length, so it
never cuts a real parse short). -/
def parseCore : Nat → PMode → List Char → Option (PRes × List Char)
  | 0, _, _ => none
  | Nat.succ fuel, PMode.val, cs =>
      match skipWs cs with
      | [] => none
      | c :: rest =>
          if c = '"' then
            (scanStrChars rest).map (fun p => (PRes.v (JsValue.str (String.mk p.1)), p.2))
          else if c = '\x7b' then
            match skipWs rest with
            | '\x7d' :: rest2 => some (PRes.v (JsValue.obj []), rest2)
            | cs2 =>
                match parseCore fuel PMode.objItems cs2 with
                | some (PRes.fields fs, rest2) => some (PRes.v (JsValue.obj fs), rest2)
                | _ => none
          else if c = '[' then
            match skipWs rest with
            | ']' :: rest2 => some (PRes.v (JsValue.arr []), rest2)
            | cs2 =>
                match parseCore fuel PMode.arrItems cs2 with
                | some (PRes.items xs, rest2) => some (PRes.v (JsValue.arr xs), rest2)
                | _ => none
          else if c = 't' then
            match rest with
            | 'r' :: 'u' :: 'e' :: rest2 => some (PRes.v (JsValue.bool true), rest2)
            | _ => none
          else if c = 'f' then
            match rest with
            | 'a' :: 'l' :: 's' :: 'e' :: rest2 => some (PRes.v (JsValue.bool false), rest2)
            | _ => none
          else if c = 'n' then
            match rest with
            | 'u' :: 'l' :: 'l' :: rest2 => some (PRes.v JsValue.null, rest2)
            | _ => none
          else if c = '-' || c.isDigit then
            (scanNumber (c :: rest)).map (fun p => (PRes.v (JsValue.num p.1), p.2))
          else none
  | Nat.succ fuel, PMode.arrItems, cs =>
      match parseCore fuel PMode.val cs with
      | some (PRes.v j, rest) =>
          (match skipWs rest with
           | ',' :: rest2 =>
               match parseCore fuel PMode.arrItems rest2 with
               | some (PRes.items xs, rest3) => some (PRes.items (j :: xs), rest3)
               | _ => none
           | ']' :: rest2 => some (PRes.items [j], rest2)
           | _ => none)
      | _ => none
  | Nat.succ fuel, PMode.objItems, cs =>
      match skipWs cs with
      | '"' :: rest =>
          match scanStrChars rest with
          | some (ks, rest2) =>
              (match skipWs rest2 with
               | ':' :: rest3 =>
                   match parseCore fuel PMode.val rest3 with
                   | some (PRes.v j, rest4) =>
                       (match skipWs rest4 with
                        | ',' :: rest5 =>
                            match parseCore fuel PMode.objItems rest5 with
                            | some (PRes.fields fs, rest6) =>
                                some (PRes.fields ((String.mk ks, j) :: fs), rest6)
                            | _ => none
                        | '\x7d' :: rest5 => some (PRes.fields [(String.mk ks, j)], rest5)
                        | _ => none)
                   | _ => none
               | _ => none)
          | none => none
      | _ => none

/-- JavaScript `JSON.parse` as used by the dispatcher: parse one value and
reject trailing garbage (other than whitespace); `none` plays the role of
the thrown `SyntaxError`. -/
def jsonParse (s : String) : Option JsValue :=
  match parseCore (s.length + 1) PMode.val s.toList with
  | some (PRes.v j, rest) => if (skipWs rest).isEmpty then some j else none
  | _ => none

/-- The transaction row built by the CREATE_TRANSACTION case of
`performAction` (the insert payload: `user_id` is always the caller's
`userId`, `status` the literal string used by the deployed function, and an
absent `data` field becomes an omitted column, i.e. NULL). -/
structure TxnRow where
  user_id : String
  amount : Option JsValue
  description : Option JsValue
  account_id : Option JsValue
  category_id : Option JsValue
  transaction_date : JsValue
  notes : Option JsValue
  status : String

/-- The budget row built by the CREATE_BUDGET case of `performAction`. -/
structure BudgetRow where
  user_id : String
  name : Option JsValue
  amount : Option JsValue
  budget_type : Option JsValue
  category_id : Option JsValue
  start_date : Option JsValue
  end_date : Option JsValue

/-- The category row built by the CREATE_CATEGORY case of `performAction`. -/
structure CategoryRow where
  user_id : String
  name : Option JsValue
  description : Option JsValue
  color : JsValue

/-- The account row built by the CREATE_ACCOUNT case of `performAction`. -/
structure AccountRow where
  user_id : String
  name : Option JsValue
  account_type : Option JsValue
  code : Option JsValue

/-- The store as seen by the dispatcher: identifier sets for foreign-key
checks of pre-existing rows, and the four tables its inserts extend. -/
structure Db where
  account_ids : List String
  category_ids : List String
  transactionsTbl : List TxnRow
  budgetsTbl : List BudgetRow
  categoriesTbl : List CategoryRow
  accountsTbl : List AccountRow

/-- Values of `CREATE TYPE public.transaction_status AS ENUM
('pending', 'cleared', 'reconciled')`. -/
def transactionStatusValues : List String := ["pending", "cleared", "reconciled"]

/-- Values of `CREATE TYPE public.account_type AS ENUM
('asset', 'liability', 'equity', 'revenue', 'expense')`. -/
def accountTypeValues : List String := ["asset", "liability", "equity", "revenue", "expense"]

/-- Values allowed by `CHECK (budget_type IN ('monthly','quarterly','yearly'))`. -/
def budgetTypeValues : List String := ["monthly", "quarterly", "yearly"]

/-- First violation in a list of optional violations. -/
def firstSome : List (Option String) → Option String
  | [] => none
  | some s :: _ => some s
  | none :: rest => firstSome rest

/-- NOT NULL text column check: the inserted value must be a string. -/
def requireString (v : Option JsValue) (col : String) : Option String :=
  match v with
  | some (JsValue.str _) => none
  | _ => some ("invalid or null value in column " ++ col)

/-- NOT NULL numeric column check: the inserted value must be a number. -/
def requireNumber (v : Option JsValue) (col : String) : Option String :=
  match v with
  | some (JsValue.num _) => none
  | _ => some ("invalid or null value in column " ++ col)

/-- Nullable foreign-key check: absent or explicit-null values pass, a
string must reference an existing id. -/
def nullableFk (ids : List String) (v : Option JsValue) (cname : String) : Option String :=
  match v with
  | none => none
  | some JsValue.null => none
  | some (JsValue.str s) => if s ∈ ids then none else some ("violates foreign key constraint " ++ cname)
  | some _ => some ("invalid value for foreign key " ++ cname)

/-- String equality of two possibly-undefined JSON values (used for the
text-column unique constraints). -/
def jsStrEq (a b : Option JsValue) : Bool :=
  match a, b with
  | some (JsValue.str x), some (JsValue.str y) => x == y
  | _, _ => false

/-- Constraint check for an insert into `public.transactions`: the
`transaction_status` enum, the NOT NULL foreign key `account_id`, the
nullable foreign key `category_id`, and the NOT NULL columns `amount` and
`description`. -/
def txnViolation (db : Db) (r : TxnRow) : Option String :=
  firstSome
    [ if r.status ∈ transactionStatusValues then none
      else some ("invalid input value for enum transaction_status: " ++ r.status)
    , (match r.account_id with
       | some (JsValue.str a) =>
           if a ∈ db.account_ids then none
           else some "violates foreign key constraint transactions_account_id_fkey"
       | _ => some "null value in column account_id violates not-null constraint")
    , nullableFk db.category_ids r.category_id "transactions_category_id_fkey"
    , requireNumber r.amount "amount"
    , requireString r.description "description" ]

/-- Constraint check for an insert into `public.budgets`. -/
def budgetViolation (db : Db) (r : BudgetRow) : Option String :=
  firstSome
    [ (match r.budget_type with
       | some (JsValue.str s) =>
           if s ∈ budgetTypeValues then none
           else some ("new row violates check constraint budgets_budget_type_check: " ++ s)
       | _ => some "invalid or null value in column budget_type")
    , requireString r.name "name"
    , requireNumber r.amount "amount"
    , requireString r.start_date "start_date"
    , requireString r.end_date "end_date"
    , nullableFk db.category_ids r.category_id "budgets_category_id_fkey" ]

/-- Constraint check for an insert into `public.categories` (NOT NULL name
and `UNIQUE(user_id, name)`). -/
def categoryViolation (db : Db) (r : CategoryRow) : Option String :=
  firstSome
    [ requireString r.name "name"
    , if db.categoriesTbl.any (fun r' => r'.user_id == r.user_id && jsStrEq r'.name r.name)
      then some "duplicate key value violates unique constraint categories_user_id_name_key"
      else none ]

/-- Constraint check for an insert into `public.accounts` (the
`account_type` enum, NOT NULL name and `UNIQUE(user_id, code)`). -/
def accountViolation (db : Db) (r : AccountRow) : Option String :=
  firstSome
    [ (match r.account_type with
       | some (JsValue.str s) =>
           if s ∈ accountTypeValues then none
           else some ("invalid input value for enum account_type: " ++ s)
       | _ => some "invalid or null value in column account_type")
    , requireString r.name "name"
    , if db.accountsTbl.any (fun r' => r'.user_id == r.user_id && jsStrEq r'.code r.code)
      then some "duplicate key value violates unique constraint accounts_user_id_code_key"
      else none ]

/-- Insert into `public.transactions`, `Except.error` standing for the
rejected insert the edge function observes as `transactionError`. -/
def insertTransactionRow (db : Db) (r : TxnRow) : Except String Db :=
  match txnViolation db r with
  | some m => Except.error m
  | none => Except.ok { db with transactionsTbl := db.transactionsTbl ++ [r] }

/-- Insert into `public.budgets`. -/
def insertBudgetRow (db : Db) (r : BudgetRow) : Except String Db :=
  match budgetViolation db r with
  | some m => Except.error m
  | none => Except.ok { db with budgetsTbl := db.budgetsTbl ++ [r] }

/-- Insert into `public.categories`. -/
def insertCategoryRow (db : Db) (r : CategoryRow) : Except String Db :=
  match categoryViolation db r with
  | some m => Except.error m
  | none => Except.ok { db with categoriesTbl := db.categoriesTbl ++ [r] }

/-- Insert into `public.accounts`. -/
def insertAccountRow (db : Db) (r : AccountRow) : Except String Db :=
  match accountViolation db r with
  | some m => Except.error m
  | none => Except.ok { db with accountsTbl := db.accountsTbl ++ [r] }

/-- Log entry for one persistence call issued by `performAction` (the
argument of the corresponding `.insert(...)`). -/
inductive PersistCall where
  | txnInsert (r : TxnRow)
  | budgetInsert (r : BudgetRow)
  | categoryInsert (r : CategoryRow)
  | accountInsert (r : AccountRow)

/-- The `user_id` column of the row a persistence call carries. -/
def PersistCall.rowUserId : PersistCall → String
  | PersistCall.txnInsert r => r.user_id
  | PersistCall.budgetInsert r => r.user_id
  | PersistCall.categoryInsert r => r.user_id
  | PersistCall.accountInsert r => r.user_id

/-- The object `performAction` returns: the `action` and `response` fields
of the result (the `action` is the raw parsed value in the default and error
branches). -/
structure ActionResult where
  action : Option JsValue
  response : JsValue

/-- JavaScript member access on the destructured `data`: reading a property
of `undefined` or `null` throws a TypeError, which the surrounding
`try/catch` of `performAction` converts into the error-format response. -/
def dataGuard : Option JsValue → Except String JsValue
  | none => Except.error "Cannot read properties of undefined"
  | some JsValue.null => Except.error "Cannot read properties of null"
  | some d => Except.ok d

/-- Display form of a possibly-undefined JSON value in a template literal.
Integral numbers render exactly as in JavaScript; non-integral ones use the
mantissa/scale form (the repository's confirmation strings never reach a
theorem, so only the string type matters). -/
def jsDisplay (v : Option JsValue) : String :=
  match v with
  | none => "undefined"
  | some JsValue.null => "null"
  | some (JsValue.bool b) => if b then "true" else "false"
  | some (JsValue.str s) => s
  | some (JsValue.num n) =>
      if n.scale = 0 then
        (if n.mant < 0 then "-" else "") ++ toString n.mant.natAbs
      else
        (if n.mant < 0 then "-" else "") ++ toString n.mant.natAbs ++ "e-" ++ toString n.scale
  | some (JsValue.arr _) => ""
  | some (JsValue.obj _) => "[object Object]"

/-- `data.amount > 0` of the template literal (false for non-numbers, like
the JavaScript comparison on `undefined`). -/
def jsGtZero (v : Option JsValue) : Bool :=
  match v with
  | some (JsValue.num n) => decide (0 < n.mant)
  | _ => false

/-- `Math.abs(data.amount)` rendered for the template literal. -/
def jsAbsDisplay (v : Option JsValue) : String :=
  match v with
  | some (JsValue.num n) => jsDisplay (some (JsValue.num { mant := |n.mant|, scale := n.scale }))
  | _ => "NaN"

/-- Fixed head of every error-format response of `performAction`. -/
def errHead : String := "❌ Error performing action: "

/-- Fallback response text of the default branch. -/
def defaultOkText : String := "Action completed successfully."

/-- The insert payload of the CREATE_TRANSACTION case:
`user_id: userId, amount: data.amount, description: data.description,
account_id: data.account_id, category_id: data.category_id,
transaction_date: data.transaction_date || today, notes: data.notes,
status: 'completed'`. -/
def rowOfCreateTxn (d : JsValue) (userId today : String) : TxnRow :=
  { user_id := userId
    amount := jget d "amount"
    description := jget d "description"
    account_id := jget d "account_id"
    category_id := jget d "category_id"
    transaction_date := jsOrElse (jget d "transaction_date") (JsValue.str today)
    notes := jget d "notes"
    status := "completed" }

/-- The insert payload of the CREATE_BUDGET case. -/
def rowOfCreateBudget (d : JsValue) (userId : String) : BudgetRow :=
  { user_id := userId
    name := jget d "name"
    amount := jget d "amount"
    budget_type := jget d "budget_type"
    category_id := jget d "category_id"
    start_date := jget d "start_date"
    end_date := jget d "end_date" }

/-- The insert payload of the CREATE_CATEGORY case
(`color: data.color || '#6366f1'`). -/
def rowOfCreateCategory (d : JsValue) (userId : String) : CategoryRow :=
  { user_id := userId
    name := jget d "name"
    description := jget d "description"
    color := jsOrElse (jget d "color") (JsValue.str "#6366f1") }

/-- The insert payload of the CREATE_ACCOUNT case. -/
def rowOfCreateAccount (d : JsValue) (userId : String) : AccountRow :=
  { user_id := userId
    name := jget d "name"
    account_type := jget d "account_type"
    code := jget d "code" }

/-- Confirmation string of a successful CREATE_TRANSACTION. -/
def createTxnOkText (d : JsValue) : String :=
  "✅ Transaction recorded successfully! Added "
    ++ (if jsGtZero (jget d "amount") then "income" else "expense")
    ++ " of $" ++ jsAbsDisplay (jget d "amount")
    ++ " for \"" ++ jsDisplay (jget d "description") ++ "\"."

/-- Confirmation string of a successful CREATE_BUDGET. -/
def createBudgetOkText (d : JsValue) : String :=
  "✅ Budget \"" ++ jsDisplay (jget d "name")
    ++ "\" created successfully! Set limit of $" ++ jsDisplay (jget d "amount")
    ++ " for " ++ jsDisplay (jget d "budget_type") ++ " period."

/-- Confirmation string of a successful CREATE_CATEGORY. -/
def createCategoryOkText (d : JsValue) : String :=
  "✅ Category \"" ++ jsDisplay (jget d "name") ++ "\" created successfully!"

/-- Confirmation string of a successful CREATE_ACCOUNT. -/
def createAccountOkText (d : JsValue) : String :=
  "✅ Account \"" ++ jsDisplay (jget d "name") ++ "\" created successfully!"

/-- The `performAction` function of the deployed edge function
`supabase/functions/ai-accountant/index.ts`: a switch on
`parsedResponse.action` with exactly four handled cases (CREATE_TRANSACTION,
CREATE_BUDGET, CREATE_CATEGORY, CREATE_ACCOUNT) and a default case; the
whole switch sits in a `try/catch` that converts any failure into the
error-format result.  Besides the result it returns the resulting store and
the list of persistence calls that were issued. -/
def performAction (j : JsValue) (userId today : String) (db : Db) :
    ActionResult × Db × List PersistCall :=
  let act := jget j "action"
  let defRes : ActionResult × Db × List PersistCall :=
    ({ action := act
       response := jsOrElse (jget j "response") (JsValue.str defaultOkText) }, db, [])
  match act with
  | some (JsValue.str a) =>
      if a = "CREATE_TRANSACTION" then
        match dataGuard (jget j "data") with
        | Except.error m =>
            ({ action := act, response := JsValue.str (errHead ++ m) }, db, [])
        | Except.ok d =>
            let r := rowOfCreateTxn d userId today
            match insertTransactionRow db r with
            | Except.error m =>
                ({ action := act, response := JsValue.str (errHead ++ m) }, db,
                 [PersistCall.txnInsert r])
            | Except.ok db' =>
                ({ action := some (JsValue.str "CREATE_TRANSACTION")
                   response := JsValue.str (createTxnOkText d) }, db',
                 [PersistCall.txnInsert r])
      else if a = "CREATE_BUDGET" then
        match dataGuard (jget j "data") with
        | Except.error m =>
            ({ action := act, response := JsValue.str (errHead ++ m) }, db, [])
        | Except.ok d =>
            let r := rowOfCreateBudget d userId
            match insertBudgetRow db r with
            | Except.error m =>
                ({ action := act, response := JsValue.str (errHead ++ m) }, db,
                 [PersistCall.budgetInsert r])
            | Except.ok db' =>
                ({ action := some (JsValue.str "CREATE_BUDGET")
                   response := JsValue.str (createBudgetOkText d) }, db',
                 [PersistCall.budgetInsert r])
      else if a = "CREATE_CATEGORY" then
        match dataGuard (jget j "data") with
        | Except.error m =>
            ({ action := act, response := JsValue.str (errHead ++ m) }, db, [])
        | Except.ok d =>
            let r := rowOfCreateCategory d userId
            match insertCategoryRow db r with
            | Except.error m =>
                ({ action := act, response := JsValue.str (errHead ++ m) }, db,
                 [PersistCall.categoryInsert r])
            | Except.ok db' =>
                ({ action := some (JsValue.str "CREATE_CATEGORY")
                   response := JsValue.str (createCategoryOkText d) }, db',
                 [PersistCall.categoryInsert r])
      else if a = "CREATE_ACCOUNT" then
        match dataGuard (jget j "data") with
        | Except.error m =>
            ({ action := act, response := JsValue.str (errHead ++ m) }, db, [])
        | Except.ok d =>
            let r := rowOfCreateAccount d userId
            match insertAccountRow db r with
            | Except.error m =>
                ({ action := act, response := JsValue.str (errHead ++ m) }, db,
                 [PersistCall.accountInsert r])
            | Except.ok db' =>
                ({ action := some (JsValue.str "CREATE_ACCOUNT")
                   response := JsValue.str (createAccountOkText d) }, db',
                 [PersistCall.accountInsert r])
      else defRes
  | _ => defRes

/-- The body of the HTTP response the serve handler builds:
`{ response: finalResponse, actionPerformed: !!actionResult,
actionType: actionResult?.action }`. -/
structure HandlerResult where
  response : JsValue
  actionPerformed : Bool
  actionType : Option JsValue

/-- The action-extraction and dispatch section of the serve handler of
`supabase/functions/ai-accountant/index.ts`: `JSON.parse` the raw model
text as-is (this version of the function performs no code-fence stripping);
on success with a truthy `action` field run `performAction`, otherwise the
raw text is the final response and no action is performed. -/
def handleAiResponse (aiResponse userId today : String) (db : Db) :
    HandlerResult × Db × List PersistCall :=
  match jsonParse aiResponse with
  | some parsed =>
      if jsTruthy (jget parsed "action") then
        let pr := performAction parsed userId today db
        ({ response := pr.1.response, actionPerformed := true, actionType := pr.1.action },
         pr.2.1, pr.2.2)
      else
        ({ response := JsValue.str aiResponse, actionPerformed := false, actionType := none },
         db, [])
  | none =>
      ({ response := JsValue.str aiResponse, actionPerformed := false, actionType := none },
       db, [])

/-- Concrete store used by the dispatcher witnesses: one existing account
and one existing category. -/
def dispatchExDb : Db :=
  { account_ids := ["acct-1"]
    category_ids := ["cat-1"]
    transactionsTbl := []
    budgetsTbl := []
    categoriesTbl := []
    accountsTbl := [] }

/-- C4: a model response that does not parse to a JSON object with a truthy
`action` field triggers no persistence operation; the raw model text is
returned verbatim with `actionPerformed = false`. -/
theorem plain_text_no_action_passthrough (aiResponse userId today : String) (db : Db)
    (h : ∀ parsed, jsonParse aiResponse = some parsed →
        jsTruthy (jget parsed "action") = false) :
    handleAiResponse aiResponse userId today db
      = ({ response := JsValue.str aiResponse, actionPerformed := false, actionType := none },
         db, []) := by
  cases hp : jsonParse aiResponse with
  | none => simp [handleAiResponse, hp]
  | some parsed => simp [handleAiResponse, hp, h parsed hp]

/-- Witness for C4 at a concrete plain-text model response. -/
theorem plain_text_no_action_passthrough_witness :
    handleAiResponse "You spent $120 on supplies." "user-1" "2025-09-17" dispatchExDb
      = ({ response := JsValue.str "You spent $120 on supplies."
           actionPerformed := false
           actionType := none }, dispatchExDb, []) :=
  plain_text_no_action_passthrough "You spent $120 on supplies." "user-1" "2025-09-17" dispatchExDb
    (by
      intro parsed hp
      rw [show jsonParse "You spent $120 on supplies." = none from rfl] at hp
      exact Option.noConfusion hp)

/-- C10: a parsed response whose `action` is a non-empty string outside the
four handled cases reaches the default branch: no persistence call is made,
yet the handler reports `actionPerformed = true` with `actionType` the
unknown action string, and the response text comes from the model's
`response` field (or the fixed fallback), not the raw model text. -/
theorem unknown_action_reported_as_performed
    (aiResponse userId today : String) (db : Db) (parsed : JsValue) (s : String)
    (hp : jsonParse aiResponse = some parsed)
    (ha : jget parsed "action" = some (JsValue.str s))
    (hne : s ≠ "")
    (h1 : s ≠ "CREATE_TRANSACTION") (h2 : s ≠ "CREATE_BUDGET")
    (h3 : s ≠ "CREATE_CATEGORY") (h4 : s ≠ "CREATE_ACCOUNT") :
    handleAiResponse aiResponse userId today db
      = ({ response := jsOrElse (jget parsed "response") (JsValue.str defaultOkText)
           actionPerformed := true
           actionType := some (JsValue.str s) }, db, []) := by
  have htruthy : jsTruthy (jget parsed "action") = true := by
    rw [ha]
    simp [jsTruthy, hne]
  simp [handleAiResponse, hp, htruthy, performAction, ha, h1, h2, h3, h4, jsTruthy, hne]

/-- Concrete unknown-action response used by the C10 witness (the system
prompt itself advertises ANALYZE_SPENDING). -/
def analyzeSpendingJson : JsValue :=
  JsValue.obj [("action", JsValue.str "ANALYZE_SPENDING"),
               ("response", JsValue.str "Spending looks healthy")]

/-- Witness for C10 at a concrete ANALYZE_SPENDING response. -/
theorem unknown_action_reported_as_performed_witness :
    handleAiResponse "\x7b\"action\":\"ANALYZE_SPENDING\",\"response\":\"Spending looks healthy\"\x7d"
        "user-1" "2025-09-17" dispatchExDb
      = ({ response := jsOrElse (jget analyzeSpendingJson "response") (JsValue.str defaultOkText)
           actionPerformed := true
           actionType := some (JsValue.str "ANALYZE_SPENDING") }, dispatchExDb, []) :=
  unknown_action_reported_as_performed
    "\x7b\"action\":\"ANALYZE_SPENDING\",\"response\":\"Spending looks healthy\"\x7d"
    "user-1" "2025-09-17" dispatchExDb analyzeSpendingJson "ANALYZE_SPENDING"
    (by rfl) (by rfl) (by decide) (by decide) (by decide) (by decide) (by decide)

/-- A parsed UPDATE_TRANSACTION action, one of the seven catalog values the
spec enumerates. -/
def updateTxnActionJson : JsValue :=
  JsValue.obj [("action", JsValue.str "UPDATE_TRANSACTION"),
               ("data", JsValue.obj [("id", JsValue.str "txn-9"),
                                     ("amount", JsValue.num { mant := 12, scale := 0 })]),
               ("response", JsValue.str "updated")]

/-- Counterexample to C3: UPDATE_TRANSACTION is one of the seven enumerated
action values, yet the deployed `performAction` has no case for it — it
falls to the default branch and issues zero persistence calls (not exactly
one), leaving the store untouched. -/
theorem seven_actions_single_call_counterexample :
    (performAction updateTxnActionJson "user-1" "2025-09-17" dispatchExDb).2.2 = []
    ∧ (performAction updateTxnActionJson "user-1" "2025-09-17" dispatchExDb).2.1 = dispatchExDb := by
  exact ⟨rfl, rfl⟩

/-- C3 as amended: for the four actions the deployed switch actually
handles (CREATE_TRANSACTION, CREATE_BUDGET, CREATE_CATEGORY,
CREATE_ACCOUNT), when the model supplied a non-null `data` value the
dispatcher issues exactly one persistence call, and the row that call
carries has `user_id` equal to the caller's `userId`, whatever `data`
contains. -/
theorem handled_actions_single_scoped_call
    (j : JsValue) (userId today : String) (db : Db) (a : String) (d : JsValue)
    (ha : jget j "action" = some (JsValue.str a))
    (hcase : a = "CREATE_TRANSACTION" ∨ a = "CREATE_BUDGET" ∨
             a = "CREATE_CATEGORY" ∨ a = "CREATE_ACCOUNT")
    (hd : dataGuard (jget j "data") = Except.ok d) :
    (performAction j userId today db).2.2.length = 1
    ∧ ∀ c ∈ (performAction j userId today db).2.2, c.rowUserId = userId := by
  rcases hcase with rfl | rfl | rfl | rfl
  · simp only [performAction, ha, hd]
    cases hins : insertTransactionRow db (rowOfCreateTxn d userId today) <;>
      simp [hins, PersistCall.rowUserId, rowOfCreateTxn]
  · simp only [performAction, ha, hd]
    cases hins : insertBudgetRow db (rowOfCreateBudget d userId) <;>
      simp [hins, PersistCall.rowUserId, rowOfCreateBudget]
  · simp only [performAction, ha, hd]
    cases hins : insertCategoryRow db (rowOfCreateCategory d userId) <;>
      simp [hins, PersistCall.rowUserId, rowOfCreateCategory]
  · simp only [performAction, ha, hd]
    cases hins : insertAccountRow db (rowOfCreateAccount d userId) <;>
      simp [hins, PersistCall.rowUserId, rowOfCreateAccount]

/-- A CREATE_TRANSACTION action whose data carries a foreign `user_id`
(which the dispatcher must ignore). -/
def createTxnForeignUserJson : JsValue :=
  JsValue.obj [("action", JsValue.str "CREATE_TRANSACTION"),
               ("data", JsValue.obj [("amount", JsValue.num { mant := -25, scale := 0 }),
                                     ("description", JsValue.str "Taxi"),
                                     ("account_id", JsValue.str "acct-1"),
                                     ("user_id", JsValue.str "attacker-7")]),
               ("response", JsValue.str "noted")]

/-- Witness for the amended C3 at a concrete CREATE_TRANSACTION whose data
embeds a foreign `user_id`. -/
theorem handled_actions_single_scoped_call_witness :
    (performAction createTxnForeignUserJson "user-1" "2025-09-17" dispatchExDb).2.2.length = 1
    ∧ ∀ c ∈ (performAction createTxnForeignUserJson "user-1" "2025-09-17" dispatchExDb).2.2,
        c.rowUserId = "user-1" :=
  handled_actions_single_scoped_call createTxnForeignUserJson "user-1" "2025-09-17" dispatchExDb
    "CREATE_TRANSACTION"
    (JsValue.obj [("amount", JsValue.num { mant := -25, scale := 0 }),
                  ("description", JsValue.str "Taxi"),
                  ("account_id", JsValue.str "acct-1"),
                  ("user_id", JsValue.str "attacker-7")])
    (by rfl) (Or.inl rfl) (by rfl)

/-- C6: in each handled case of `performAction`, a rejected persistence
call creates no row (the store is returned unchanged) and yields the
fixed-format error string embedding the underlying failure message; the
result is an ordinary return value, never an exception escaping
`performAction`. -/
theorem failing_persistence_error_and_no_row :
    (∀ (j : JsValue) (userId today : String) (db : Db) (d : JsValue) (m : String),
        jget j "action" = some (JsValue.str "CREATE_TRANSACTION") →
        dataGuard (jget j "data") = Except.ok d →
        insertTransactionRow db (rowOfCreateTxn d userId today) = Except.error m →
        performAction j userId today db
          = ({ action := some (JsValue.str "CREATE_TRANSACTION")
               response := JsValue.str (errHead ++ m) }, db,
             [PersistCall.txnInsert (rowOfCreateTxn d userId today)]))
    ∧ (∀ (j : JsValue) (userId today : String) (db : Db) (d : JsValue) (m : String),
        jget j "action" = some (JsValue.str "CREATE_BUDGET") →
        dataGuard (jget j "data") = Except.ok d →
        insertBudgetRow db (rowOfCreateBudget d userId) = Except.error m →
        performAction j userId today db
          = ({ action := some (JsValue.str "CREATE_BUDGET")
               response := JsValue.str (errHead ++ m) }, db,
             [PersistCall.budgetInsert (rowOfCreateBudget d userId)]))
    ∧ (∀ (j : JsValue) (userId today : String) (db : Db) (d : JsValue) (m : String),
        jget j "action" = some (JsValue.str "CREATE_CATEGORY") →
        dataGuard (jget j "data") = Except.ok d →
        insertCategoryRow db (rowOfCreateCategory d userId) = Except.error m →
        performAction j userId today db
          = ({ action := some (JsValue.str "CREATE_CATEGORY")
               response := JsValue.str (errHead ++ m) }, db,
             [PersistCall.categoryInsert (rowOfCreateCategory d userId)]))
    ∧ (∀ (j : JsValue) (userId today : String) (db : Db) (d : JsValue) (m : String),
        jget j "action" = some (JsValue.str "CREATE_ACCOUNT") →
        dataGuard (jget j "data") = Except.ok d →
        insertAccountRow db (rowOfCreateAccount d userId) = Except.error m →
        performAction j userId today db
          = ({ action := some (JsValue.str "CREATE_ACCOUNT")
               response := JsValue.str (errHead ++ m) }, db,
             [PersistCall.accountInsert (rowOfCreateAccount d userId)])) := by
  refine ⟨?_, ?_, ?_, ?_⟩ <;>
    (intro j userId today db d m ha hd hins; simp [performAction, ha, hd, hins])

/-- A CREATE_TRANSACTION action referencing an account id that does not
exist in the store. -/
def createTxnBadAccountJson : JsValue :=
  JsValue.obj [("action", JsValue.str "CREATE_TRANSACTION"),
               ("data", JsValue.obj [("amount", JsValue.num { mant := -25, scale := 0 }),
                                     ("description", JsValue.str "Taxi"),
                                     ("account_id", JsValue.str "no-such-account")]),
               ("response", JsValue.str "noted")]

/-- Witness for C6 at a concrete failing CREATE_TRANSACTION (its insert is
rejected; with this dispatcher the `transaction_status` enum violation is
reported first). -/
theorem failing_persistence_error_and_no_row_witness :
    performAction createTxnBadAccountJson "user-1" "2025-09-17" dispatchExDb
      = ({ action := some (JsValue.str "CREATE_TRANSACTION")
           response := JsValue.str
             (errHead ++ "invalid input value for enum transaction_status: completed") },
         dispatchExDb,
         [PersistCall.txnInsert
           (rowOfCreateTxn
             (JsValue.obj [("amount", JsValue.num { mant := -25, scale := 0 }),
                           ("description", JsValue.str "Taxi"),
                           ("account_id", JsValue.str "no-such-account")])
             "user-1" "2025-09-17")]) :=
  failing_persistence_error_and_no_row.1 createTxnBadAccountJson "user-1" "2025-09-17"
    dispatchExDb
    (JsValue.obj [("amount", JsValue.num { mant := -25, scale := 0 }),
                  ("description", JsValue.str "Taxi"),
                  ("account_id", JsValue.str "no-such-account")])
    "invalid input value for enum transaction_status: completed"
    (by rfl) (by rfl) (by rfl)

/-- C9: the deployed CREATE_TRANSACTION case always inserts
`status = 'completed'`, which is not a `transaction_status` enum value, so
under the declared schema every CREATE_TRANSACTION takes the error branch
and the dispatcher can never create a transaction row. -/
theorem create_transaction_always_rejected :
    ("completed" ∉ transactionStatusValues)
    ∧ (∀ (d : JsValue) (userId today : String),
        (rowOfCreateTxn d userId today).status = "completed")
    ∧ (∀ (j : JsValue) (userId today : String) (db : Db),
        jget j "action" = some (JsValue.str "CREATE_TRANSACTION") →
        (performAction j userId today db).2.1 = db
        ∧ ∃ m, (performAction j userId today db).1.response = JsValue.str (errHead ++ m)) := by
  refine ⟨by decide, fun d userId today => rfl, ?_⟩
  intro j userId today db ha
  cases hd : dataGuard (jget j "data") with
  | error m =>
      simp [performAction, ha, hd]
  | ok d =>
      have hins : insertTransactionRow db (rowOfCreateTxn d userId today)
          = Except.error "invalid input value for enum transaction_status: completed" := rfl
      simp [performAction, ha, hd, hins]

/-- A well-formed CREATE_TRANSACTION action referencing the existing
account, for the C9 witness. -/
def createTxnGoodJson : JsValue :=
  JsValue.obj [("action", JsValue.str "CREATE_TRANSACTION"),
               ("data", JsValue.obj [("amount", JsValue.num { mant := -25, scale := 0 }),
                                     ("description", JsValue.str "Taxi"),
                                     ("account_id", JsValue.str "acct-1"),
                                     ("category_id", JsValue.str "cat-1")]),
               ("response", JsValue.str "noted")]

/-- Witness for C9: even a fully well-formed CREATE_TRANSACTION against an
existing account and category is rejected and leaves the store unchanged. -/
theorem create_transaction_always_rejected_witness :
    (performAction createTxnGoodJson "user-1" "2025-09-17" dispatchExDb).2.1 = dispatchExDb
    ∧ ∃ m, (performAction createTxnGoodJson "user-1" "2025-09-17" dispatchExDb).1.response
        = JsValue.str (errHead ++ m) :=
  create_transaction_always_rejected.2.2 createTxnGoodJson "user-1" "2025-09-17" dispatchExDb
    (by rfl)

/-- A bare action JSON object, exactly as §4.2 expects the model to send. -/
def bareActionText : String :=
  "\x7b\"action\":\"CREATE_CATEGORY\",\"data\":\x7b\"name\":\"Trips\"\x7d,\"response\":\"ok\"\x7d"

/-- The same action object wrapped in triple-backtick code-fence markup with
a json language tag. -/
def fencedActionText : String := "```json\n" ++ bareActionText ++ "\n```"

/-- Counterexample to C5: the fenced response is not stripped — it fails
`JSON.parse`, no action is extracted or executed and the fenced text is
returned verbatim with `actionPerformed = false`; the identical bare object
does execute (one persistence call, `actionPerformed = true`). -/
theorem fenced_action_not_executed_counterexample :
    handleAiResponse fencedActionText "user-1" "2025-09-17" dispatchExDb
      = ({ response := JsValue.str fencedActionText
           actionPerformed := false
           actionType := none }, dispatchExDb, [])
    ∧ (handleAiResponse bareActionText "user-1" "2025-09-17" dispatchExDb).1.actionPerformed = true
    ∧ (handleAiResponse bareActionText "user-1" "2025-09-17" dispatchExDb).2.2.length = 1 := by
  exact ⟨rfl, rfl, rfl⟩

/-- First character of a string after JSON whitespace. -/
def headCharAfterWs (s : String) : Option Char :=
  match skipWs s.toList with
  | c :: _ => some c
  | [] => none

/-- Helper: the JSON grammar has no production starting with a backtick, so
`parseCore` fails on any input whose first non-whitespace character is one. -/
theorem parseCore_val_backtick (fuel : Nat) (cs rest' : List Char)
    (h : skipWs cs = Char.ofNat 96 :: rest') :
    parseCore fuel PMode.val cs = none := by
  cases fuel with
  | zero => rfl
  | succ f =>
      simp only [parseCore, h]
      rw [if_neg (by decide), if_neg (by decide), if_neg (by decide), if_neg (by decide),
        if_neg (by decide), if_neg (by decide), if_neg (by decide)]

/-- C5 as amended: the deployed dispatcher performs no code-fence
stripping — any model response whose first non-whitespace character is a
backtick fails `JSON.parse`, so no action is extracted or executed and the
fenced text is returned verbatim with `actionPerformed = false`. -/
theorem fenced_response_treated_as_plain_text (aiResponse userId today : String) (db : Db)
    (h : headCharAfterWs aiResponse = some (Char.ofNat 96)) :
    handleAiResponse aiResponse userId today db
      = ({ response := JsValue.str aiResponse, actionPerformed := false, actionType := none },
         db, []) := by
  have hbk : ∃ rest', skipWs aiResponse.toList = Char.ofNat 96 :: rest' := by
    unfold headCharAfterWs at h
    cases hs : skipWs aiResponse.toList with
    | nil => rw [hs] at h; exact Option.noConfusion h
    | cons c rest =>
        rw [hs] at h
        have hc : c = Char.ofNat 96 := Option.some.inj h
        exact ⟨rest, by first
          | rw [hs, hc]
          | rw [hc]⟩
  obtain ⟨rest', hbk⟩ := hbk
  have hparse : jsonParse aiResponse = none := by
    unfold jsonParse
    rw [parseCore_val_backtick _ _ rest' hbk]
  simp [handleAiResponse, hparse]

/-- Witness for the amended C5 at the concrete fenced response. -/
theorem fenced_response_treated_as_plain_text_witness :
    handleAiResponse fencedActionText "user-2" "2025-09-18" dispatchExDb
      = ({ response := JsValue.str fencedActionText
           actionPerformed := false
           actionType := none }, dispatchExDb, []) :=
  fenced_response_treated_as_plain_text fencedActionText "user-2" "2025-09-18" dispatchExDb
    (by decide)

/-!
Part 3 embeds the chat exchange persistence of `src/hooks/useChat.ts`
(`sendMessage` together with the edge-function-backed `generateAIResponse`).
The store operations are the success path of the hosted store (the
authenticated user owns the conversation, per the row-level policies); the
outcome of the edge-function invocation is quantified over, covering the
action-fired, no-action and model-failure cases.
-/

/-- An apostrophe, so the embedded fallback strings match the source
exactly. -/
def apos : String := String.singleton (Char.ofNat 39)

/-- Fallback returned when `supabase.functions.invoke` resolves with an
error. -/
def invokeErrorText : String :=
  "I apologize, but I" ++ apos
    ++ "m having trouble processing your request right now. Please try again."

/-- Fallback used when the invocation succeeds but `data.response` is
falsy. -/
def emptyResponseText : String :=
  "I apologize, but I couldn" ++ apos ++ "t generate a response. Please try again."

/-- Fallback returned by the catch block of `generateAIResponse` (thrown
auth errors, network failures, and the like). -/
def technicalDifficultiesText : String :=
  "I" ++ apos ++ "m currently experiencing technical difficulties. Please try again in a moment."

/-- Outcome of `supabase.functions.invoke('ai-accountant', ...)` as observed
by `generateAIResponse`: the call resolved with an error object, the call
(or anything else inside the try block) threw, or it resolved with data
whose `response` field is the given optional string. -/
inductive InvokeOutcome where
  | errorResult
  | threw
  | ok (response : Option String)

/-- The `generateAIResponse` function of `src/hooks/useChat.ts`: always
returns a string — an unauthenticated user or a thrown invocation lands in
the catch block, an invocation error yields the apology text, and a
successful invocation yields `data.response || fallback`. -/
def generateAIResponse (authed : Bool) (o : InvokeOutcome) : String :=
  if authed then
    match o with
    | InvokeOutcome.errorResult => invokeErrorText
    | InvokeOutcome.threw => technicalDifficultiesText
    | InvokeOutcome.ok r =>
        match r with
        | some s => if s = "" then emptyResponseText else s
        | none => emptyResponseText
  else technicalDifficultiesText

/-- A row of `public.messages` (columns written by the hook). -/
structure ChatMessageRow where
  conversation_id : String
  role : String
  content : String
deriving DecidableEq, Repr

/-- A row of `public.conversations` (columns the hook reads or writes). -/
structure ConversationRow where
  id : String
  user_id : String
  title : String
  updated_at : Nat
deriving DecidableEq, Repr

/-- The conversation/message store. -/
structure ChatStore where
  conversations : List ConversationRow
  messages : List ChatMessageRow
deriving DecidableEq, Repr

/-- The title computed by `createNewConversation`:
`firstMessage.slice(0, 50) + (firstMessage.length > 50 ? '...' : '')`. -/
def conversationTitle (firstMessage : String) : String :=
  (firstMessage.take 50) ++ (if 50 < firstMessage.length then "..." else "")

/-- The `sendMessage` function of `src/hooks/useChat.ts` on the store's
success path: create the conversation when none is selected (this step
throws for an unauthenticated user, aborting the whole send), insert the
user message, compute the assistant response via `generateAIResponse`,
insert the assistant message, and advance the conversation's `updated_at`
to the current time. -/
def sendMessage (store : ChatStore) (content : String) (currentConversationId : Option String)
    (authed : Bool) (uid newConversationId : String) (outcome : InvokeOutcome)
    (now : Nat) : ChatStore :=
  match currentConversationId with
  | none =>
      if authed then
        let convId := newConversationId
        let store1 : ChatStore :=
          { store with conversations := store.conversations ++
              [{ id := convId, user_id := uid, title := conversationTitle content,
                 updated_at := now }] }
        let store2 : ChatStore :=
          { store1 with messages := store1.messages ++
              [{ conversation_id := convId, role := "user", content := content }] }
        let aiResponse := generateAIResponse authed outcome
        let store3 : ChatStore :=
          { store2 with messages := store2.messages ++
              [{ conversation_id := convId, role := "assistant", content := aiResponse }] }
        { store3 with conversations := store3.conversations.map (fun c =>
            if c.id == convId then { c with updated_at := now } else c) }
      else store
  | some convId =>
      let store2 : ChatStore :=
        { store with messages := store.messages ++
            [{ conversation_id := convId, role := "user", content := content }] }
      let aiResponse := generateAIResponse authed outcome
      let store3 : ChatStore :=
        { store2 with messages := store2.messages ++
            [{ conversation_id := convId, role := "assistant", content := aiResponse }] }
      { store3 with conversations := store3.conversations.map (fun c =>
          if c.id == convId then { c with updated_at := now } else c) }

/-- The conversation row `createNewConversation` inserts (id generated by
the store, title from the first message, timestamps defaulting to now). -/
def createdConversationRow (id0 uid content : String) (now : Nat) : ConversationRow :=
  { id := id0, user_id := uid, title := conversationTitle content, updated_at := now }

/-- Helper: effect of the `updated_at` touch
(`update({updated_at: now}).eq('id', convId)`) on the conversations table. -/
theorem touch_conversations_spec (cs : List ConversationRow) (cid : String) (now : Nat) :
    (∀ c ∈ cs.map (fun c => if c.id == cid then { c with updated_at := now } else c),
        c.id = cid → c.updated_at = now)
    ∧ (cs.any (fun c => c.id == cid) = true →
        ∃ c ∈ cs.map (fun c => if c.id == cid then { c with updated_at := now } else c),
          c.id = cid ∧ c.updated_at = now) := by
  constructor
  · intro c hc hid
    simp only [List.mem_map] at hc
    obtain ⟨c0, hc0, rfl⟩ := hc
    by_cases h : (c0.id == cid) = true
    · rw [if_pos h]
    · rw [if_neg h] at hid
      exact absurd hid (by simpa using h)
  · intro hany
    simp only [List.any_eq_true] at hany
    obtain ⟨c0, hc0, hid⟩ := hany
    refine ⟨{ c0 with updated_at := now }, ?_, ?_, rfl⟩
    · simp only [List.mem_map]
      exact ⟨c0, hc0, by rw [if_pos hid]⟩
    · simpa using hid

/-- C8: for an authenticated user, whatever the edge-function outcome
(action fired, plain response, invocation error or thrown failure), one
`sendMessage` appends exactly the user message followed by the assistant
message holding the final response text to the conversation, and the
conversation's `updated_at` is set to the current time. -/
theorem chat_exchange_persisted (store : ChatStore) (content : String)
    (cidOpt : Option String) (uid newCid : String) (outcome : InvokeOutcome) (now : Nat)
    (hconv : match cidOpt with
      | some cid => store.conversations.any (fun c => c.id == cid) = true
      | none => True) :
    (sendMessage store content cidOpt true uid newCid outcome now).messages
      = store.messages
        ++ [{ conversation_id := cidOpt.getD newCid, role := "user", content := content },
            { conversation_id := cidOpt.getD newCid, role := "assistant",
              content := generateAIResponse true outcome }]
    ∧ (∀ c ∈ (sendMessage store content cidOpt true uid newCid outcome now).conversations,
        c.id = cidOpt.getD newCid → c.updated_at = now)
    ∧ ∃ c ∈ (sendMessage store content cidOpt true uid newCid outcome now).conversations,
        c.id = cidOpt.getD newCid ∧ c.updated_at = now := by
  cases cidOpt with
  | none =>
      have h' := touch_conversations_spec
        (store.conversations ++ [createdConversationRow newCid uid content now]) newCid now
      have hany : (store.conversations
            ++ [createdConversationRow newCid uid content now]).any
            (fun c => c.id == newCid) = true := by
        simp [createdConversationRow]
      refine ⟨by simp [sendMessage], ?_, ?_⟩
      · simpa [sendMessage, createdConversationRow] using h'.1
      · simpa [sendMessage, createdConversationRow] using h'.2 hany
  | some cid =>
      refine ⟨by simp [sendMessage], ?_, ?_⟩
      · simpa [sendMessage] using
          (touch_conversations_spec store.conversations cid now).1
      · simpa [sendMessage] using
          (touch_conversations_spec store.conversations cid now).2 hconv

/-- Existing conversation used by the chat witness. -/
def chatExConv : ConversationRow :=
  { id := "conv-1", user_id := "user-1", title := "Hi", updated_at := 10 }

/-- Store used by the chat witness. -/
def chatExStore : ChatStore := { conversations := [chatExConv], messages := [] }

/-- Witness for C8 at a concrete send whose model invocation failed. -/
theorem chat_exchange_persisted_witness :
    (sendMessage chatExStore "Record my lunch" (some "conv-1") true "user-1" "conv-new"
        InvokeOutcome.errorResult 50).messages
      = chatExStore.messages
        ++ [{ conversation_id := (some "conv-1").getD "conv-new", role := "user",
              content := "Record my lunch" },
            { conversation_id := (some "conv-1").getD "conv-new", role := "assistant",
              content := generateAIResponse true InvokeOutcome.errorResult }]
    ∧ (∀ c ∈ (sendMessage chatExStore "Record my lunch" (some "conv-1") true "user-1" "conv-new"
          InvokeOutcome.errorResult 50).conversations,
        c.id = (some "conv-1").getD "conv-new" → c.updated_at = 50)
    ∧ ∃ c ∈ (sendMessage chatExStore "Record my lunch" (some "conv-1") true "user-1" "conv-new"
          InvokeOutcome.errorResult 50).conversations,
        c.id = (some "conv-1").getD "conv-new" ∧ c.updated_at = 50 :=
  chat_exchange_persisted chatExStore "Record my lunch" (some "conv-1") "user-1" "conv-new"
    InvokeOutcome.errorResult 50 (by decide)
